import Mathlib

/-!
Verification of the oracle-core refresh/publish engine (a shallow embedding of
`src/core/src/pool_commands/refresh.rs`, `src/core/src/pool_commands/publish_datapoint.rs`
and `src/core/src/oracle_state.rs`).

Modelling conventions:
* Machine integers (`u64`, `u32`, `i64`) are modelled as `Nat`/`Int`; wrap-around is made
  explicit with `% 2 ^ 64` at the places where an attacker-controlled `u64` value can
  overflow (datapoint rates are arbitrary oracle-chosen `u64` values).  Epoch counters and
  heights are small protocol-controlled quantities and are modelled as plain `Nat`.
* Rust panics (`unwrap` on `None`/`Err`, division by zero) are modelled by `Option`:
  a `none` result of a build function means the Rust code panics instead of returning.
* The `f32` arithmetic mean in `remove_largest_local_deviation_datapoint` is modelled as
  an exact rational mean (`ℚ`).
* External collaborators (chain scans, the wallet, ergo-lib's `SimpleBoxSelector` and
  `TxBuilder`, the datapoint feed) are passed in as explicit `Except`-valued inputs or
  function parameters, mirroring the trait objects in the source.
-/

namespace OracleCore

/-- Stage errors, mirroring the variants of `StageError` in `src/core/src/oracle_state.rs`.
The payloads carried by the Rust variants are irrelevant to the claims and are omitted. -/
inductive StageErr where
  | nodeError
  | unexpectedData
  | scanError
  | poolBoxError
  | ballotBoxError
  | refreshBoxError
  | oracleBoxError
  | dataPointSourceErr
  | updateBoxError
deriving DecidableEq, Repr

/-- Wallet-data errors (`WalletDataError` in `src/core/src/wallet.rs`, seen here only as an
opaque propagated error). -/
inductive WalletDataErr where
  | err
deriving DecidableEq, Repr

/-- Box-selector errors of ergo-lib's `SimpleBoxSelector` (external dependency). -/
inductive BoxSelectorErr where
  | err
deriving DecidableEq, Repr

/-- Transaction-builder errors of ergo-lib's `TxBuilder` (external dependency). -/
inductive TxBuilderErr where
  | err
deriving DecidableEq, Repr

/-- Datapoint-feed errors (`DataPointSourceError`). -/
inductive DataPointSourceErr where
  | err
deriving DecidableEq, Repr

/-- Error type mirroring `RefreshActionError` in `src/core/src/pool_commands/refresh.rs`
(lines 37-59).  Public keys are modelled as `Nat` (abstract `EcPoint`s). -/
inductive RefreshActionError where
  | FailedToReachConsensus (found_public_keys : List Nat) (found_num : Nat) (expected : Nat)
  | NotEnoughDatapoints
  | StageError (e : StageErr)
  | WalletData (e : WalletDataErr)
  | BoxSelectorError (e : BoxSelectorErr)
  | TxBuilderError (e : TxBuilderErr)
  | ErgoBoxCandidateBuilderError
  | MyOracleBoxNoFound
deriving DecidableEq, Repr

/-- Size of the `u64` value domain; used to make wrap-around of `u64` arithmetic explicit. -/
def u64Size : Nat := 2 ^ 64

/-- Value of Rust's `iter().min().unwrap()` on a nonempty `Vec<u64>` (total model: `0` on
the empty list, which the source never reaches). -/
def listMin : List Nat → Nat
  | [] => 0
  | x :: xs => xs.foldl min x

/-- Value of Rust's `iter().max().unwrap()` on a nonempty `Vec<u64>`. -/
def listMax : List Nat → Nat
  | [] => 0
  | x :: xs => xs.foldl max x

/-- Embedding of `deviation_check` (refresh.rs lines 191-196): the spread between the
largest and smallest datapoint must be within `max_deviation_range` percent of the
largest.  The `u64` product `max_datapoint * max_deviation_range` wraps, hence the
`% u64Size`. -/
def deviation_check (max_deviation_range : Nat) (datapoint_boxes : List Nat) : Bool :=
  listMax datapoint_boxes - listMin datapoint_boxes ≤
    listMax datapoint_boxes * max_deviation_range % u64Size / 100

/-- Rational arithmetic mean of a list of `u64` datapoints as computed by refresh.rs line
208 (`iter().sum::<u64>() as f32 / len as f32`): the `u64` sum wraps, the `f32` division
is modelled exactly over `ℚ`. -/
def datapointMean (datapoint_boxes : List Nat) : ℚ :=
  ((datapoint_boxes.sum % u64Size : Nat) : ℚ) / (datapoint_boxes.length : ℚ)

/-- Body of the `else` branch of `remove_largest_local_deviation_datapoint` (refresh.rs
lines 207-226): if the maximum deviates from the mean at least as much as the minimum
does (`front_deviation >= back_deviation`), every datapoint equal to the maximum is
filtered out, otherwise every datapoint equal to the minimum is. -/
def removeFurthestExtreme (datapoint_boxes : List Nat) : List Nat :=
  if datapointMean datapoint_boxes - (listMin datapoint_boxes : ℚ) ≤
      (listMax datapoint_boxes : ℚ) - datapointMean datapoint_boxes then
    datapoint_boxes.filter (fun dp => dp ≠ listMax datapoint_boxes)
  else
    datapoint_boxes.filter (fun dp => dp ≠ listMin datapoint_boxes)

/-- Embedding of `remove_largest_local_deviation_datapoint` (refresh.rs lines 201-227):
with two or fewer datapoints left it fails with `NotEnoughDatapoints`, otherwise it
drops the extreme with the larger local deviation. -/
def remove_largest_local_deviation_datapoint (datapoint_boxes : List Nat) :
    Except RefreshActionError (List Nat) :=
  if datapoint_boxes.length ≤ 2 then .error .NotEnoughDatapoints
  else .ok (removeFurthestExtreme datapoint_boxes)

theorem listMax_mem : ∀ l : List Nat, l ≠ [] → listMax l ∈ l := by
  intro l h
  match l with
  | x :: xs =>
    simp only [listMax]
    clear h
    induction xs generalizing x with
    | nil => simp
    | cons y ys ih =>
      simp only [List.foldl_cons]
      have h := ih (max x y)
      rw [List.mem_cons] at h
      rcases h with h | h
      · rcases max_choice x y with hm | hm <;> rw [hm] at h ⊢ <;> simp [h]
      · simp [h]

theorem listMin_mem : ∀ l : List Nat, l ≠ [] → listMin l ∈ l := by
  intro l h
  match l with
  | x :: xs =>
    simp only [listMin]
    clear h
    induction xs generalizing x with
    | nil => simp
    | cons y ys ih =>
      simp only [List.foldl_cons]
      have h := ih (min x y)
      rw [List.mem_cons] at h
      rcases h with h | h
      · rcases min_choice x y with hm | hm <;> rw [hm] at h ⊢ <;> simp [h]
      · simp [h]

theorem removeFurthestExtreme_length {l : List Nat} (h : l ≠ []) :
    (removeFurthestExtreme l).length < l.length := by
  unfold removeFurthestExtreme
  split
  · exact List.length_filter_lt_length_iff_exists.mpr ⟨listMax l, listMax_mem l h, by simp⟩
  · exact List.length_filter_lt_length_iff_exists.mpr ⟨listMin l, listMin_mem l h, by simp⟩

/-- The `while !deviation_check { remove_largest_local_deviation_datapoint }` loop of
`filtered_oracle_boxes_by_rate` (refresh.rs lines 183-186), with the `?`-propagation of
the only possible error (`NotEnoughDatapoints`, raised on length &le; 2) inlined;
`filterLoop_matches_remove` below restates it in the two-branch shape of the source. -/
def filterLoop (deviation_range : Nat) (l : List Nat) : Except RefreshActionError (List Nat) :=
  if deviation_check deviation_range l then .ok l
  else if l.length ≤ 2 then .error .NotEnoughDatapoints
  else filterLoop deviation_range (removeFurthestExtreme l)
termination_by l.length
decreasing_by exact removeFurthestExtreme_length (by intro he; subst he; simp_all)

theorem filterLoop_matches_remove (d : Nat) (l : List Nat) :
    filterLoop d l = if deviation_check d l then .ok l
      else match remove_largest_local_deviation_datapoint l with
        | .error e => .error e
        | .ok l' => filterLoop d l' := by
  rw [filterLoop, remove_largest_local_deviation_datapoint]
  split
  · rfl
  · split <;> simp

/-- Embedding of `filtered_oracle_boxes_by_rate` (refresh.rs lines 174-189). -/
def filtered_oracle_boxes_by_rate (oracle_boxes : List Nat) (deviation_range : Nat) :
    Except RefreshActionError (List Nat) :=
  if oracle_boxes.isEmpty then .ok oracle_boxes
  else filterLoop deviation_range oracle_boxes

/-- Relation identifying two filter outcomes up to permutation of the retained rates:
equal errors, or successful results that are permutations of each other. -/
def exceptPermEquiv : Except RefreshActionError (List Nat) →
    Except RefreshActionError (List Nat) → Prop
  | .ok F, .ok F' => F.Perm F'
  | .error e, .error e' => e = e'
  | _, _ => False

/-- Register values of an output box: a signed integer (R4/R5/R6 numeric registers) or a
group element (an oracle public key in R4). -/
inductive RegValue where
  | int (i : Int)
  | groupElement (pk : Nat)
deriving DecidableEq, Repr

/-- Output box candidate: the model of ergo-lib's `ErgoBoxCandidate` as assembled by the
`make_*_candidate` helpers.  Contracts (ergo trees) and token ids are abstracted as
`Nat`; `tokens` is the ordered list of (token id, amount) pairs. -/
structure ErgoBoxCandidate where
  contract : Nat
  value : Nat
  creation_height : Nat
  tokens : List (Nat × Nat)
  R4 : Option RegValue
  R5 : Option RegValue
  R6 : Option RegValue
deriving DecidableEq, Repr

/-- Typed view of a posted oracle datapoint box: the fields behind the accessors of
`PostedOracleBox` used by refresh.rs (`get_box().creation_height`, `epoch_counter()`,
`rate()`, `public_key()`, `oracle_token()`, `reward_token()`, `contract()`,
`get_box().value`).  The wrapper type itself lives in the `box_kind` module (not under
src/); the fields are those its accessors expose per spec section 3 (Oracle Datapoint
Box). -/
structure PostedOracleBox where
  contract : Nat
  value : Nat
  creation_height : Nat
  public_key : Nat
  epoch_counter : Nat
  rate : Nat
  oracle_token_id : Nat
  oracle_token_amount : Nat
  reward_token_id : Nat
  reward_token_amount : Nat
deriving DecidableEq, Repr

/-- Typed view of the pool box (`PoolBoxWrapper` accessors used by the sources:
`epoch_counter()`, `rate()`, `pool_nft_token()`, `reward_token()`, `contract()`,
`get_box().value`, `get_box().creation_height`); spec section 3 (Pool Box). -/
structure PoolBoxWrapper where
  contract : Nat
  value : Nat
  creation_height : Nat
  epoch_counter : Nat
  rate : Int
  pool_nft_token_id : Nat
  reward_token_id : Nat
  reward_token_amount : Nat
deriving DecidableEq, Repr

/-- Typed view of the refresh box (`RefreshBoxWrapper`: `contract()`,
`refresh_nft_token()`, `get_box().value`, `contract().epoch_length()`); spec section 3
(Refresh Box). -/
structure RefreshBoxWrapper where
  contract : Nat
  value : Nat
  refresh_nft_token_id : Nat
  epoch_length : Nat
deriving DecidableEq, Repr

/-- Reinterpretation of a `u64` value as an `i64` (the `as i64` cast applied to the new
pool rate in `build_out_pool_box`). -/
def toSigned64 (n : Nat) : Int :=
  if n % u64Size < 2 ^ 63 then ((n % u64Size : Nat) : Int)
  else ((n % u64Size : Nat) : Int) - (u64Size : Int)

/-- Reinterpretation of an `i64` value as a `u64` (the `as u64` cast applied to the pool
rate in `get_live_epoch_state`). -/
def toUnsigned64 (i : Int) : Nat := (i % (u64Size : Int)).toNat

/-- Checked `u64` subtraction (`TokenAmount::checked_sub` in ergo-lib): `none` on
underflow, which the caller turns into a panic via `unwrap`. -/
def checked_sub_u64 (a b : Nat) : Option Nat := if b ≤ a then some (a - b) else none

/-- Checked `u64` addition (`TokenAmount::checked_add`): `none` on overflow. -/
def checked_add_u64 (a b : Nat) : Option Nat :=
  if a + b < u64Size then some (a + b) else none

/-- Modelled from the spec: `make_pool_box_candidate` (module `box_kind`, not under
src/) assembles the replacement pool box from the fields passed by
`build_out_pool_box`: the pool contract, R4 = new rate, R5 = new epoch counter, the
pool NFT (quantity 1) and the reward-token reserve, value and creation height (spec
sections 3 Pool Box and 4.5.3 step 7). -/
def make_pool_box_candidate (contract : Nat) (rate : Int) (epoch_counter : Int)
    (pool_nft_token_id : Nat) (reward_token_id : Nat) (reward_token_amount : Nat)
    (value : Nat) (creation_height : Nat) : ErgoBoxCandidate :=
  { contract := contract, value := value, creation_height := creation_height,
    tokens := [(pool_nft_token_id, 1), (reward_token_id, reward_token_amount)],
    R4 := some (.int rate), R5 := some (.int epoch_counter), R6 := none }

/-- Modelled from the spec: `make_refresh_box_candidate` (module `box_kind`, not under
src/) rebuilds the refresh box as an identical replica with updated creation height
(spec section 4.5.3 step 8). -/
def make_refresh_box_candidate (contract : Nat) (refresh_nft_token_id : Nat)
    (value : Nat) (creation_height : Nat) : ErgoBoxCandidate :=
  { contract := contract, value := value, creation_height := creation_height,
    tokens := [(refresh_nft_token_id, 1)],
    R4 := none, R5 := none, R6 := none }

/-- Modelled from the spec: `make_collected_oracle_box_candidate` (module `box_kind`,
not under src/) rebuilds a collected oracle box with the same tree, pubkey (R4), oracle
token and value, and the new reward-token amount (spec section 4.5.3 step 9). -/
def make_collected_oracle_box_candidate (contract : Nat) (public_key : Nat)
    (oracle_token_id : Nat) (oracle_token_amount : Nat) (reward_token_id : Nat)
    (reward_token_amount : Nat) (value : Nat) (creation_height : Nat) : ErgoBoxCandidate :=
  { contract := contract, value := value, creation_height := creation_height,
    tokens := [(oracle_token_id, oracle_token_amount), (reward_token_id, reward_token_amount)],
    R4 := some (.groupElement public_key), R5 := none, R6 := none }

/-- Modelled from the spec: `make_oracle_box_candidate` (module `box_kind`, not under
src/) builds a published datapoint box: oracle tree, R4 = public key, R5 = epoch
counter, R6 = datapoint, oracle token and reward tokens, value (spec sections 4.5.1 and
4.5.2). -/
def make_oracle_box_candidate (contract : Nat) (public_key : Nat) (datapoint : Int)
    (epoch_counter : Nat) (oracle_token_id : Nat) (oracle_token_amount : Nat)
    (reward_token_id : Nat) (reward_token_amount : Nat) (value : Nat)
    (creation_height : Nat) : ErgoBoxCandidate :=
  { contract := contract, value := value, creation_height := creation_height,
    tokens := [(oracle_token_id, oracle_token_amount), (reward_token_id, reward_token_amount)],
    R4 := some (.groupElement public_key), R5 := some (.int epoch_counter),
    R6 := some (.int datapoint) }

/-- Embedding of `calc_pool_rate` (refresh.rs lines 229-232): the wrapped `u64` sum of
the retained rates divided by their count.  Rust's `u64` division by zero panics, hence
`none` on an empty list. -/
def calc_pool_rate (oracle_boxes_rates : List Nat) : Option Nat :=
  if oracle_boxes_rates.length = 0 then none
  else some (oracle_boxes_rates.sum % u64Size / oracle_boxes_rates.length)

/-- Embedding of `build_out_pool_box` (refresh.rs lines 234-260): epoch counter
incremented, reward reserve decremented with `checked_sub` whose failure is an
`unwrap` panic (`none` here).  Epoch counters are protocol-controlled small values, so
the `u32`/`i32` casts on `epoch_counter + 1` are modelled as exact. -/
def build_out_pool_box (in_pool_box : PoolBoxWrapper) (creation_height : Nat)
    (rate : Nat) (reward_decrement : Nat) : Option ErgoBoxCandidate :=
  match checked_sub_u64 in_pool_box.reward_token_amount reward_decrement with
  | none => none
  | some new_amount =>
    some (make_pool_box_candidate in_pool_box.contract (toSigned64 rate)
      ((in_pool_box.epoch_counter + 1 : Nat) : Int) in_pool_box.pool_nft_token_id
      in_pool_box.reward_token_id new_amount in_pool_box.value creation_height)

/-- Embedding of `build_out_refresh_box` (refresh.rs lines 262-273). -/
def build_out_refresh_box (in_refresh_box : RefreshBoxWrapper) (creation_height : Nat) :
    ErgoBoxCandidate :=
  make_refresh_box_candidate in_refresh_box.contract in_refresh_box.refresh_nft_token_id
    in_refresh_box.value creation_height

/-- Rust's `collect::<Result<Vec<_>, _>>` / all-or-nothing collection over `Option`. -/
def collectOption {α : Type} : List (Option α) → Option (List α)
  | [] => some []
  | none :: _ => none
  | some a :: rest => (collectOption rest).map (a :: ·)

/-- Embedding of `build_out_oracle_boxes` (refresh.rs lines 275-306): every retained
oracle box gets `+1` reward token, except the collector (the box whose R4 equals
`my_public_key`), which gets `+(1 + count)`; the `checked_add` failures are `unwrap`
panics (`none`). -/
def build_out_oracle_boxes (valid_oracle_boxes : List PostedOracleBox)
    (creation_height : Nat) (my_public_key : Nat) : Option (List ErgoBoxCandidate) :=
  collectOption (valid_oracle_boxes.map (fun in_ob =>
    (checked_add_u64 in_ob.reward_token_amount
        (if in_ob.public_key == my_public_key then 1 + valid_oracle_boxes.length else 1)).map
      (fun new_amount =>
        make_collected_oracle_box_candidate in_ob.contract in_ob.public_key
          in_ob.oracle_token_id in_ob.oracle_token_amount in_ob.reward_token_id
          new_amount in_ob.value creation_height)))

/-- Candidate eligibility predicate of refresh.rs lines 81-84: creation height within
the current epoch window and R5 equal to the pool box's epoch counter. -/
def oracleBoxFilter (min_start_height : Nat) (pool_epoch : Nat) (b : PostedOracleBox) :
    Bool :=
  min_start_height < b.creation_height && b.epoch_counter == pool_epoch

/-- Steps 2-7 of `build_refresh_action` (refresh.rs lines 76-96) as a named function:
filter the datapoint boxes to the current-epoch candidates, sort them ascending by rate
(Rust's stable `sort_by_key`, modelled by the stable `insertionSort`), run the
deviation filter on the rates, and retain the boxes whose rate survived.
`height - epoch_length` is Rust `u32` subtraction; the driver always calls this with
`height` at least one epoch length, matching truncated `Nat` subtraction. -/
def retainedCandidates (in_pool_box : PoolBoxWrapper) (in_refresh_box : RefreshBoxWrapper)
    (datapoint_boxes : List PostedOracleBox) (height : Nat) (deviation_range : Nat) :
    Except RefreshActionError (List PostedOracleBox) :=
  match filtered_oracle_boxes_by_rate
      ((List.insertionSort (fun a b => a.rate ≤ b.rate)
        (datapoint_boxes.filter
          (oracleBoxFilter (height - in_refresh_box.epoch_length) in_pool_box.epoch_counter))).map
        PostedOracleBox.rate)
      deviation_range with
  | .error e => .error e
  | .ok valid_dps =>
    .ok ((List.insertionSort (fun a b => a.rate ≤ b.rate)
      (datapoint_boxes.filter
        (oracleBoxFilter (height - in_refresh_box.epoch_length) in_pool_box.epoch_counter))).filter
      (fun b => valid_dps.contains b.rate))

/-- Result of a successful refresh build: the assembled output candidates (pool box,
refresh box, then one box per retained oracle, in that order — the change and fee
outputs appended by ergo-lib's external `TxBuilder` are beyond the modelled candidates),
the collector's index into the retained set (refresh.rs line 122, placed into the
refresh-box context extension), and the selected wallet boxes. -/
structure RefreshAction where
  output_candidates : List ErgoBoxCandidate
  my_input_oracle_box_index : Nat
  selected_wallet_boxes : List Nat
deriving DecidableEq, Repr

/-- Embedding of `build_refresh_action` (refresh.rs lines 62-172).  The trait-object
sources are passed as `Except`-valued inputs; ergo-lib's `SimpleBoxSelector` and
`TxBuilder` are abstracted as the `box_selector` function and the `tx_build_res` input
(their internal behaviour is external to this repository); wallet boxes are abstract
`Nat` ids.  The `ErgoBoxCandidateBuilder` failures of the spec-modelled `make_*`
constructors are not modelled (they are infallible here).  A `none` result models a
panic (an `unwrap` failure or the division by zero in `calc_pool_rate`); `some` carries
the returned `Result`. -/
def build_refresh_action
    (pool_box_res : Except StageErr PoolBoxWrapper)
    (refresh_box_res : Except StageErr RefreshBoxWrapper)
    (datapoint_res : Except StageErr (List PostedOracleBox))
    (max_deviation_percent : Nat) (min_data_points : Nat)
    (wallet_res : Except WalletDataErr (List Nat))
    (box_selector : List Nat → Except BoxSelectorErr (List Nat))
    (tx_build_res : Except TxBuilderErr Unit)
    (height : Nat) (my_oracle_pk : Nat) :
    Option (Except RefreshActionError RefreshAction) :=
  match pool_box_res with
  | .error e => some (.error (.StageError e))
  | .ok in_pool_box =>
    match refresh_box_res with
    | .error e => some (.error (.StageError e))
    | .ok in_refresh_box =>
      match datapoint_res with
      | .error e => some (.error (.StageError e))
      | .ok datapoint_boxes =>
        match retainedCandidates in_pool_box in_refresh_box datapoint_boxes height
            max_deviation_percent with
        | .error e => some (.error e)
        | .ok valid_in_oracle_boxes =>
          if valid_in_oracle_boxes.length < min_data_points then
            some (.error (.FailedToReachConsensus
              (valid_in_oracle_boxes.map PostedOracleBox.public_key)
              valid_in_oracle_boxes.length min_data_points))
          else
            match calc_pool_rate (valid_in_oracle_boxes.map PostedOracleBox.rate) with
            | none => none
            | some rate =>
              match build_out_pool_box in_pool_box height rate
                  (valid_in_oracle_boxes.length * 2) with
              | none => none
              | some out_pool_box =>
                match build_out_oracle_boxes valid_in_oracle_boxes height my_oracle_pk with
                | none => none
                | some out_oracle_boxes =>
                  match wallet_res with
                  | .error e => some (.error (.WalletData e))
                  | .ok unspent_boxes =>
                    match box_selector unspent_boxes with
                    | .error e => some (.error (.BoxSelectorError e))
                    | .ok selected =>
                      match valid_in_oracle_boxes.findIdx?
                          (fun b => b.public_key == my_oracle_pk) with
                      | none => some (.error .MyOracleBoxNoFound)
                      | some my_index =>
                        match tx_build_res with
                        | .error e => some (.error (.TxBuilderError e))
                        | .ok _ =>
                          some (.ok
                            { output_candidates := out_pool_box ::
                                build_out_refresh_box in_refresh_box height ::
                                out_oracle_boxes,
                              my_input_oracle_box_index := my_index,
                              selected_wallet_boxes := selected })

/-- LiveEpochState of `src/core/src/oracle_state.rs` lines 167-173. -/
structure LiveEpochState where
  epoch_id : Nat
  commit_datapoint_in_epoch : Bool
  epoch_ends : Nat
  latest_pool_datapoint : Nat
deriving DecidableEq, Repr

/-- PoolState of `src/core/src/state.rs` as consumed by `check_oracle_pool_stage` (the
commented-out epoch-preparation state is gone from the live code). -/
inductive PoolState where
  | NeedsBootstrap
  | LiveEpoch (s : LiveEpochState)
deriving DecidableEq, Repr

/-- DatapointState of oracle_state.rs lines 183-191. -/
structure DatapointState where
  datapoint : Nat
  origin_epoch_id : Nat
  creation_height : Nat
deriving DecidableEq, Repr

/-- Embedding of `OraclePool::get_datapoint_state` (oracle_state.rs lines 350-368): the
optional local scan, when registered, yields the local datapoint box or propagates its
`StageError`. -/
def get_datapoint_state (local_box_res : Option (Except StageErr PostedOracleBox)) :
    Except StageErr (Option DatapointState) :=
  match local_box_res with
  | none => .ok none
  | some (.error e) => .error e
  | some (.ok b) =>
    .ok (some { datapoint := b.rate
                origin_epoch_id := b.epoch_counter
                creation_height := b.creation_height })

/-- Embedding of `OraclePool::get_live_epoch_state` (oracle_state.rs lines 297-327):
the epoch length comes from the refresh-contract parameters in the configuration. -/
def get_live_epoch_state (pool_box_res : Except StageErr PoolBoxWrapper)
    (local_box_res : Option (Except StageErr PostedOracleBox)) (epoch_length : Nat) :
    Except StageErr LiveEpochState :=
  match pool_box_res with
  | .error e => .error e
  | .ok pool_box =>
    match get_datapoint_state local_box_res with
    | .error e => .error e
    | .ok ds =>
      .ok { epoch_id := pool_box.epoch_counter,
            commit_datapoint_in_epoch :=
              match ds with
              | some s => pool_box.epoch_counter == s.origin_epoch_id
              | none => false,
            epoch_ends := pool_box.creation_height + epoch_length,
            latest_pool_datapoint := toUnsigned64 pool_box.rate }

/-- Embedding of `OraclePool::check_oracle_pool_stage` (oracle_state.rs lines 288-294). -/
def check_oracle_pool_stage (pool_box_res : Except StageErr PoolBoxWrapper)
    (local_box_res : Option (Except StageErr PostedOracleBox)) (epoch_length : Nat) : PoolState :=
  match get_live_epoch_state pool_box_res local_box_res epoch_length with
  | .ok s => .LiveEpoch s
  | .error _ => .NeedsBootstrap

/-- Oracle-box validation errors (`OracleBoxError` in `box_kind`, opaque here). -/
inductive OracleBoxErr where
  | invalid
deriving DecidableEq, Repr

/-- Embedding of `DatapointBoxesSource::get_oracle_datapoint_boxes` for `DatapointStage`
(oracle_state.rs lines 510-520): the scan result is propagated with `?`, but each box is
wrapped with `OracleBoxWrapper::new(..).unwrap()` — a failed validation is a panic
(`none`), never a `StageError`.  Raw scanned boxes are abstract `Nat` ids and the
`box_kind` validation (not under src/) is the `validate` parameter. -/
def get_oracle_datapoint_boxes (scan_res : Except StageErr (List Nat))
    (validate : Nat → Except OracleBoxErr PostedOracleBox) :
    Option (Except StageErr (List PostedOracleBox)) :=
  match scan_res with
  | .error e => some (.error e)
  | .ok bs =>
    match collectOption (bs.map (fun b => (validate b).toOption)) with
    | none => none
    | some ws => some (.ok ws)

/-- Error type mirroring `PublishDatapointActionError` in
`src/core/src/pool_commands/publish_datapoint.rs` lines 29-47. -/
inductive PublishDatapointActionError where
  | StageError (e : StageErr)
  | NoRewardTokenInOracleBox
  | TxBuilder (e : TxBuilderErr)
  | ErgoBoxCandidateBuilder
  | WalletData (e : WalletDataErr)
  | BoxSelector (e : BoxSelectorErr)
  | DataPointSource (e : DataPointSourceErr)
  | OracleContract
deriving DecidableEq, Repr

/-- Result of a successful publish build (`PublishDataPointAction`): the single output
candidate (fee and change outputs of the external `TxBuilder` are beyond the modelled
candidates) and the selected wallet boxes. -/
structure PublishDataPointAction where
  output_candidates : List ErgoBoxCandidate
  selected_wallet_boxes : List Nat
deriving DecidableEq, Repr

/-- Embedding of `build_subsequent_publish_datapoint_action` (publish_datapoint.rs
lines 49-100): fetch the new datapoint, reject an oracle box with zero reward tokens,
rebuild the local datapoint box with R5 = `new_epoch_counter` and R6 = the new
datapoint, then select wallet boxes for the fee and assemble the transaction. -/
def build_subsequent_publish_datapoint_action
    (local_datapoint_box : PostedOracleBox)
    (wallet_res : Except WalletDataErr (List Nat))
    (height : Nat)
    (datapoint_res : Except DataPointSourceErr Int)
    (new_epoch_counter : Nat)
    (box_selector : List Nat → Except BoxSelectorErr (List Nat))
    (tx_build_res : Except TxBuilderErr Unit) :
    Except PublishDatapointActionError PublishDataPointAction :=
  match datapoint_res with
  | .error e => .error (.DataPointSource e)
  | .ok new_datapoint =>
    if local_datapoint_box.reward_token_amount = 0 then .error .NoRewardTokenInOracleBox
    else
      match wallet_res with
      | .error e => .error (.WalletData e)
      | .ok unspent_boxes =>
        match box_selector unspent_boxes with
        | .error e => .error (.BoxSelector e)
        | .ok selected =>
          match tx_build_res with
          | .error e => .error (.TxBuilder e)
          | .ok _ =>
            .ok { output_candidates := [make_oracle_box_candidate
                    local_datapoint_box.contract local_datapoint_box.public_key
                    new_datapoint new_epoch_counter local_datapoint_box.oracle_token_id
                    local_datapoint_box.oracle_token_amount
                    local_datapoint_box.reward_token_id
                    local_datapoint_box.reward_token_amount
                    local_datapoint_box.value height],
                  selected_wallet_boxes := selected }

/-- Concrete pool box used by witnesses and counterexamples. -/
def cPoolBox : PoolBoxWrapper :=
  { contract := 1, value := 1000000, creation_height := 50, epoch_counter := 1,
    rate := 200, pool_nft_token_id := 11, reward_token_id := 12,
    reward_token_amount := 100 }

/-- Concrete pool box whose reward reserve (3) is smaller than the decrement for two
retained oracles (4). -/
def cPoolBoxPoor : PoolBoxWrapper := { cPoolBox with reward_token_amount := 3 }

/-- Concrete refresh box used by witnesses and counterexamples. -/
def cRefreshBox : RefreshBoxWrapper :=
  { contract := 2, value := 5000, refresh_nft_token_id := 13, epoch_length := 30 }

/-- Concrete oracle datapoint box of the collector (public key 1). -/
def cOracle1 : PostedOracleBox :=
  { contract := 3, value := 400, creation_height := 95, public_key := 1,
    epoch_counter := 1, rate := 100, oracle_token_id := 14, oracle_token_amount := 1,
    reward_token_id := 12, reward_token_amount := 10 }

/-- Concrete oracle datapoint box of a second oracle (public key 2). -/
def cOracle2 : PostedOracleBox :=
  { cOracle1 with public_key := 2, rate := 102, reward_token_amount := 20 }

theorem filter_ne_count (l : List Nat) (e x : Nat) :
    (l.filter (fun dp => dp ≠ e)).count x = if x = e then 0 else l.count x := by
  split
  · rename_i hx
    subst hx
    refine List.count_eq_zero.mpr ?_
    intro hmem
    simp [List.mem_filter] at hmem
  · exact List.count_filter (by simp [*])

theorem filter_ne_length (l : List Nat) (e : Nat) :
    (l.filter (fun dp => dp ≠ e)).length + l.count e = l.length := by
  induction l with
  | nil => simp
  | cons a l ih =>
    by_cases ha : a = e
    · subst ha
      rw [List.filter_cons_of_neg (by simp), List.count_cons_self, List.length_cons]
      omega
    · rw [List.filter_cons_of_pos (by simp [ha]), List.count_cons_of_ne (by omega),
        List.length_cons, List.length_cons]
      omega

/-- The deviation-trimming loop only ever returns a list passing `deviation_check`. -/
theorem filterLoop_ok_check {d : Nat} {l F : List Nat} (h : filterLoop d l = .ok F) :
    deviation_check d F = true := by
  induction l using filterLoop.induct d with
  | case1 l hc => rw [filterLoop] at h; simp [hc] at h; subst h; exact hc
  | case2 l hc hlen => rw [filterLoop] at h; simp [hc, hlen] at h
  | case3 l hc hlen ih => rw [filterLoop] at h; simp [hc, hlen] at h; exact ih h

/-- The deviation-trimming loop can only fail with `NotEnoughDatapoints`. -/
theorem filterLoop_error {d : Nat} {l : List Nat} {e : RefreshActionError}
    (h : filterLoop d l = .error e) : e = .NotEnoughDatapoints := by
  induction l using filterLoop.induct d with
  | case1 l hc => rw [filterLoop] at h; simp [hc] at h
  | case2 l hc hlen => rw [filterLoop] at h; simp [hc, hlen] at h; exact h.symm
  | case3 l hc hlen ih => rw [filterLoop] at h; simp [hc, hlen] at h; exact ih h

/-- Claim C2 as frozen is false: one iteration of the trimming loop on the repository's
own test vector `[95, 96, 97, 98, 99, 200, 200]` (refresh.rs line 593) removes BOTH
copies of the maximal rate 200, not exactly one candidate (7 candidates become 5). -/
theorem c2_single_removal_counterexample :
    remove_largest_local_deviation_datapoint [95, 96, 97, 98, 99, 200, 200] =
      .ok [95, 96, 97, 98, 99] ∧
    ¬ ([95, 96, 97, 98, 99] : List Nat).length =
        ([95, 96, 97, 98, 99, 200, 200] : List Nat).length - 1 := by
  constructor
  · norm_num [remove_largest_local_deviation_datapoint, removeFurthestExtreme,
      datapointMean, u64Size, listMin, listMax]
  · decide

/-- Claim C2 amended: each iteration of the deviation-trimming loop removes ALL
candidates whose rate equals the selected extreme (so exactly one candidate only when
that extreme value is unique): every occurrence of the maximal rate is dropped when
`(max − mean) ≥ (mean − min)` (ties favour the max), otherwise every occurrence of the
minimal rate is dropped. -/
theorem c2_extreme_removal_amended (l : List Nat) (h : 2 < l.length) :
    ∃ dropped F, remove_largest_local_deviation_datapoint l = .ok F ∧
      dropped = (if datapointMean l - (listMin l : ℚ) ≤ (listMax l : ℚ) - datapointMean l
        then listMax l else listMin l) ∧
      (∀ x, F.count x = if x = dropped then 0 else l.count x) ∧
      F.length + l.count dropped = l.length := by
  refine ⟨_, removeFurthestExtreme l, ?_, rfl, ?_, ?_⟩
  · rw [remove_largest_local_deviation_datapoint]
    rw [if_neg (by omega)]
  · intro x
    rw [removeFurthestExtreme]
    split
    · exact filter_ne_count l _ x
    · exact filter_ne_count l _ x
  · rw [removeFurthestExtreme]
    split
    · exact filter_ne_length l _
    · exact filter_ne_length l _

/-- Witness for `c2_extreme_removal_amended` at `[1, 2, 4]`: mean 7/3, front deviation
5/3 ≥ back deviation 4/3, so the single maximal rate 4 is dropped. -/
theorem c2_extreme_removal_witness :
    ∃ dropped F, remove_largest_local_deviation_datapoint [1, 2, 4] = .ok F ∧
      dropped = (if datapointMean [1, 2, 4] - (listMin [1, 2, 4] : ℚ) ≤
          (listMax [1, 2, 4] : ℚ) - datapointMean [1, 2, 4]
        then listMax [1, 2, 4] else listMin [1, 2, 4]) ∧
      (∀ x, F.count x = if x = dropped then 0 else ([1, 2, 4] : List Nat).count x) ∧
      F.length + ([1, 2, 4] : List Nat).count dropped = ([1, 2, 4] : List Nat).length :=
  c2_extreme_removal_amended [1, 2, 4] (by decide)

/-- Claim C3: any successfully filtered set `F` satisfies `|F| ≤ 1` or
`max(F) − min(F) ≤ max(F) × d / 100` (in exact integer arithmetic), and the only
possible failure of the filter is `NotEnoughDatapoints`. -/
theorem c3_deviation_invariant (R : List Nat) (d : Nat) :
    (∀ F, filtered_oracle_boxes_by_rate R d = .ok F →
      F.length ≤ 1 ∨ listMax F - listMin F ≤ listMax F * d / 100) ∧
    (∀ e, filtered_oracle_boxes_by_rate R d = .error e → e = .NotEnoughDatapoints) := by
  constructor
  · intro F hF
    right
    rw [filtered_oracle_boxes_by_rate] at hF
    split at hF
    · rename_i hemp
      simp only [Except.ok.injEq] at hF
      subst hF
      rw [List.isEmpty_iff] at hemp
      subst hemp
      simp [listMax, listMin]
    · have hc := filterLoop_ok_check hF
      rw [deviation_check] at hc
      simp only [decide_eq_true_eq] at hc
      calc listMax F - listMin F ≤ listMax F * d % u64Size / 100 := hc
        _ ≤ listMax F * d / 100 := Nat.div_le_div_right (Nat.mod_le _ _)
  · intro e hE
    rw [filtered_oracle_boxes_by_rate] at hE
    split at hE
    · simp at hE
    · exact filterLoop_error hE

/-- Witness for `c3_deviation_invariant`: the spec's scenario 1 input
`[199, 70, 196, 197, 198, 200]` with deviation 5 filters to `[199, 196, 197, 198, 200]`
and `200 − 196 ≤ 200 × 5 / 100`. -/
theorem c3_deviation_invariant_witness :
    ([199, 196, 197, 198, 200] : List Nat).length ≤ 1 ∨
      listMax [199, 196, 197, 198, 200] - listMin [199, 196, 197, 198, 200] ≤
        listMax [199, 196, 197, 198, 200] * 5 / 100 :=
  (c3_deviation_invariant [199, 70, 196, 197, 198, 200] 5).1 [199, 196, 197, 198, 200]
    (by rw [filtered_oracle_boxes_by_rate]
        rw [if_neg (by decide)]
        rw [filterLoop]
        norm_num [deviation_check, u64Size, listMin, listMax, removeFurthestExtreme,
          datapointMean]
        rw [filterLoop]
        norm_num [deviation_check, u64Size, listMin, listMax])

theorem foldl_min_le : ∀ (zs : List Nat) (x y : Nat), y ∈ x :: zs → zs.foldl min x ≤ y := by
  intro zs
  induction zs with
  | nil =>
    intro x y h
    simp at h
    simp [h]
  | cons z zs ih =>
    intro x y h
    rw [List.foldl_cons]
    rw [List.mem_cons, List.mem_cons] at h
    rcases h with h | h | h
    · exact le_trans (le_trans (ih (min x z) _ (List.mem_cons_self _ _)) (min_le_left x z))
        (le_of_eq h.symm)
    · exact le_trans (le_trans (ih (min x z) _ (List.mem_cons_self _ _)) (min_le_right x z))
        (le_of_eq h.symm)
    · exact ih (min x z) y (List.mem_cons_of_mem _ h)

theorem foldl_max_ge : ∀ (zs : List Nat) (x y : Nat), y ∈ x :: zs → y ≤ zs.foldl max x := by
  intro zs
  induction zs with
  | nil =>
    intro x y h
    simp at h
    simp [h]
  | cons z zs ih =>
    intro x y h
    rw [List.foldl_cons]
    rw [List.mem_cons, List.mem_cons] at h
    rcases h with h | h | h
    · exact le_trans (le_of_eq h) (le_trans (le_max_left x z)
        (ih (max x z) _ (List.mem_cons_self _ _)))
    · exact le_trans (le_of_eq h) (le_trans (le_max_right x z)
        (ih (max x z) _ (List.mem_cons_self _ _)))
    · exact ih (max x z) y (List.mem_cons_of_mem _ h)

theorem listMin_le {l : List Nat} {y : Nat} (h : y ∈ l) : listMin l ≤ y := by
  match l with
  | x :: xs => exact foldl_min_le xs x y h

theorem listMax_ge {l : List Nat} {y : Nat} (h : y ∈ l) : y ≤ listMax l := by
  match l with
  | x :: xs => exact foldl_max_ge xs x y h

theorem listMin_perm {l l' : List Nat} (h : l.Perm l') : listMin l = listMin l' := by
  cases l with
  | nil =>
    have : l' = [] := h.symm.eq_nil
    subst this
    rfl
  | cons a as =>
    have hne : a :: as ≠ [] := by simp
    have hne' : l' ≠ [] := by
      intro he
      subst he
      exact hne h.eq_nil
    exact le_antisymm (listMin_le (h.mem_iff.mpr (listMin_mem l' hne')))
      (listMin_le (h.mem_iff.mp (listMin_mem _ hne)))

theorem listMax_perm {l l' : List Nat} (h : l.Perm l') : listMax l = listMax l' := by
  cases l with
  | nil =>
    have : l' = [] := h.symm.eq_nil
    subst this
    rfl
  | cons a as =>
    have hne : a :: as ≠ [] := by simp
    have hne' : l' ≠ [] := by
      intro he
      subst he
      exact hne h.eq_nil
    exact le_antisymm (listMax_ge (h.mem_iff.mp (listMax_mem _ hne)))
      (listMax_ge (h.mem_iff.mpr (listMax_mem l' hne')))

theorem deviation_check_perm (d : Nat) {l l' : List Nat} (h : l.Perm l') :
    deviation_check d l = deviation_check d l' := by
  rw [deviation_check, deviation_check, listMin_perm h, listMax_perm h]

theorem datapointMean_perm {l l' : List Nat} (h : l.Perm l') :
    datapointMean l = datapointMean l' := by
  rw [datapointMean, datapointMean, h.sum_eq, h.length_eq]

theorem removeFurthestExtreme_perm {l l' : List Nat} (h : l.Perm l') :
    (removeFurthestExtreme l).Perm (removeFurthestExtreme l') := by
  rw [removeFurthestExtreme, removeFurthestExtreme, ← listMin_perm h, ← listMax_perm h,
    ← datapointMean_perm h]
  split
  · exact h.filter _
  · exact h.filter _

/-- Relation identifying two filter outcomes up to permutation of the retained rates:
equal errors, or successful results that are permutations of each other. -/
theorem exceptPermEquiv_refl (r : Except RefreshActionError (List Nat)) :
    exceptPermEquiv r r := by
  cases r
  · rfl
  · exact List.Perm.refl _

theorem filterLoop_perm (d : Nat) :
    ∀ (n : Nat) (l l' : List Nat), l.length ≤ n → l.Perm l' →
      exceptPermEquiv (filterLoop d l) (filterLoop d l') := by
  intro n
  induction n with
  | zero =>
    intro l l' hn hp
    have hl : l = [] := List.length_eq_zero.mp (Nat.le_zero.mp hn)
    subst hl
    have hl' : l' = [] := hp.symm.eq_nil
    subst hl'
    exact exceptPermEquiv_refl _
  | succ n ih =>
    intro l l' hn hp
    conv_lhs => rw [filterLoop]
    conv_rhs => rw [filterLoop]
    rw [← deviation_check_perm d hp, ← hp.length_eq]
    split
    · exact hp
    · split
      · rfl
      · rename_i hch hlen
        have hne : l ≠ [] := by
          intro he
          subst he
          simp at hlen
        exact ih (removeFurthestExtreme l) (removeFurthestExtreme l')
          (by have := removeFurthestExtreme_length hne; omega)
          (removeFurthestExtreme_perm hp)

/-- Claim C7: the deviation filter is order-independent.  Filtering any permutation of
the input rates (in particular the ascending sort the refresh builder applies) yields
the same error, or success with the same multiset of retained rates. -/
theorem c7_filter_perm_invariant (R R' : List Nat) (d : Nat) (h : R.Perm R') :
    exceptPermEquiv (filtered_oracle_boxes_by_rate R d)
      (filtered_oracle_boxes_by_rate R' d) := by
  rw [filtered_oracle_boxes_by_rate, filtered_oracle_boxes_by_rate]
  by_cases hR : R = []
  · subst hR
    have : R' = [] := h.symm.eq_nil
    subst this
    exact List.Perm.refl _
  · have hR' : R' ≠ [] := by
      intro he
      subst he
      exact hR h.eq_nil
    rw [if_neg (by simpa using hR), if_neg (by simpa using hR')]
    exact filterLoop_perm d R.length R R' le_rfl h

/-- Witness for `c7_filter_perm_invariant`: filtering `[1, 2]` and its permutation
`[2, 1]` with deviation 100 both succeed with permuted results. -/
theorem c7_filter_perm_invariant_witness :
    exceptPermEquiv (filtered_oracle_boxes_by_rate [1, 2] 100)
      (filtered_oracle_boxes_by_rate [2, 1] 100) :=
  c7_filter_perm_invariant [1, 2] [2, 1] 100 (by decide)

theorem collectOption_map_get {α β : Type} (f : α → Option β) :
    ∀ {l : List α} {r : List β}, collectOption (l.map f) = some r →
      ∀ {i : Nat} {a : α}, l[i]? = some a → ∃ b, r[i]? = some b ∧ f a = some b := by
  intro l
  induction l with
  | nil =>
    intro r h i a ha
    simp at ha
  | cons x xs ih =>
    intro r h i a ha
    rw [List.map_cons] at h
    cases hfx : f x with
    | none => rw [hfx] at h; simp [collectOption] at h
    | some b0 =>
      rw [hfx] at h
      cases hrest : collectOption (xs.map f) with
      | none => simp [collectOption, hrest] at h
      | some r1 =>
        simp only [collectOption, hrest, Option.map] at h
        injection h with h
        subst h
        cases i with
        | zero =>
          simp at ha
          subst ha
          exact ⟨b0, by simp, hfx⟩
        | succ n =>
          simp only [List.getElem?_cons_succ] at ha ⊢
          exact ih hrest ha

theorem collectOption_map_mem_none {α β : Type} (f : α → Option β) :
    ∀ {l : List α} {a : α}, a ∈ l → f a = none → collectOption (l.map f) = none := by
  intro l
  induction l with
  | nil =>
    intro a ha hfa
    simp at ha
  | cons x xs ih =>
    intro a ha hfa
    rw [List.mem_cons] at ha
    rw [List.map_cons]
    rcases ha with ha | ha
    · subst ha
      rw [hfa]
      simp [collectOption]
    · cases hfx : f x with
      | none => simp [collectOption]
      | some b => simp [collectOption, ih ha hfa]

theorem collectOption_map_mem_some {α β : Type} (f : α → Option β) {l : List α}
    {r : List β} (h : collectOption (l.map f) = some r) {a : α} (ha : a ∈ l) :
    ∃ b, f a = some b := by
  obtain ⟨i, hi⟩ := List.getElem?_of_mem ha
  obtain ⟨b, _, hb⟩ := collectOption_map_get f h hi
  exact ⟨b, hb⟩

/-- Restated error analysis of the filter (shared helper): a failure is always
`NotEnoughDatapoints`. -/
theorem filtered_oracle_boxes_error {R : List Nat} {d : Nat} {e : RefreshActionError}
    (h : filtered_oracle_boxes_by_rate R d = .error e) : e = .NotEnoughDatapoints := by
  rw [filtered_oracle_boxes_by_rate] at h
  split at h
  · simp at h
  · exact filterLoop_error h

theorem retainedCandidates_error {pb : PoolBoxWrapper} {rb : RefreshBoxWrapper}
    {dps : List PostedOracleBox} {height dev : Nat} {e : RefreshActionError}
    (h : retainedCandidates pb rb dps height dev = .error e) :
    e = .NotEnoughDatapoints := by
  rw [retainedCandidates] at h
  split at h
  · rename_i e1 hf
    injection h with h
    subst h
    exact filtered_oracle_boxes_error hf
  · simp at h

/-- Success inversion for the refresh builder (shared helper): a returned `Ok` action
pins down every intermediate result of the pipeline. -/
theorem build_refresh_action_ok_inv
    {pool_box_res : Except StageErr PoolBoxWrapper}
    {refresh_box_res : Except StageErr RefreshBoxWrapper}
    {datapoint_res : Except StageErr (List PostedOracleBox)}
    {dev min_dp : Nat} {wallet_res : Except WalletDataErr (List Nat)}
    {box_selector : List Nat → Except BoxSelectorErr (List Nat)}
    {tx_build_res : Except TxBuilderErr Unit} {height my_pk : Nat}
    {pb : PoolBoxWrapper} {rb : RefreshBoxWrapper} {dps : List PostedOracleBox}
    {retained : List PostedOracleBox} {act : RefreshAction}
    (hpb : pool_box_res = .ok pb) (hrb : refresh_box_res = .ok rb)
    (hdps : datapoint_res = .ok dps)
    (hret : retainedCandidates pb rb dps height dev = .ok retained)
    (h : build_refresh_action pool_box_res refresh_box_res datapoint_res dev min_dp
      wallet_res box_selector tx_build_res height my_pk = some (.ok act)) :
    min_dp ≤ retained.length ∧
    ∃ rate out_pool outs sel my_idx,
      calc_pool_rate (retained.map PostedOracleBox.rate) = some rate ∧
      build_out_pool_box pb height rate (retained.length * 2) = some out_pool ∧
      build_out_oracle_boxes retained height my_pk = some outs ∧
      act = { output_candidates := out_pool :: build_out_refresh_box rb height :: outs
              my_input_oracle_box_index := my_idx
              selected_wallet_boxes := sel } := by
  subst hpb
  subst hrb
  subst hdps
  simp only [build_refresh_action, hret] at h
  split at h
  · simp at h
  · rename_i hmin
    split at h
    · simp at h
    · rename_i rate hrate
      split at h
      · simp at h
      · rename_i out_pool hpool
        split at h
        · simp at h
        · rename_i outs houts
          split at h
          · simp at h
          · rename_i unspent hwallet
            split at h
            · simp at h
            · rename_i sel hsel
              split at h
              · simp at h
              · rename_i my_idx hidx
                split at h
                · simp at h
                · simp only [Option.some.injEq, Except.ok.injEq] at h
                  exact ⟨by omega, rate, out_pool, outs, sel, my_idx, hrate, hpool,
                    houts, h.symm⟩

/-- Claim C5: the refresh builder returns `FailedToReachConsensus` exactly when the
deviation trimming succeeded and the number of retained candidates is below
`min_data_points`; the error carries expected = `min_data_points`, found = the retained
count, and the public keys of the retained boxes. -/
theorem c5_consensus_error_iff (pool_box_res : Except StageErr PoolBoxWrapper)
    (refresh_box_res : Except StageErr RefreshBoxWrapper)
    (datapoint_res : Except StageErr (List PostedOracleBox))
    (dev min_dp : Nat) (wallet_res : Except WalletDataErr (List Nat))
    (box_selector : List Nat → Except BoxSelectorErr (List Nat))
    (tx_build_res : Except TxBuilderErr Unit) (height my_pk : Nat)
    (pks : List Nat) (found expected : Nat) :
    build_refresh_action pool_box_res refresh_box_res datapoint_res dev min_dp
        wallet_res box_selector tx_build_res height my_pk =
      some (.error (.FailedToReachConsensus pks found expected)) ↔
    ∃ pb rb dps retained, pool_box_res = .ok pb ∧ refresh_box_res = .ok rb ∧
      datapoint_res = .ok dps ∧
      retainedCandidates pb rb dps height dev = .ok retained ∧
      retained.length < min_dp ∧ pks = retained.map PostedOracleBox.public_key ∧
      found = retained.length ∧ expected = min_dp := by
  constructor
  · intro h
    cases pool_box_res with
    | error e => simp [build_refresh_action] at h
    | ok pb =>
      cases refresh_box_res with
      | error e => simp [build_refresh_action] at h
      | ok rb =>
        cases datapoint_res with
        | error e => simp [build_refresh_action] at h
        | ok dps =>
          cases hret : retainedCandidates pb rb dps height dev with
          | error e =>
            have he := retainedCandidates_error hret
            subst he
            simp [build_refresh_action, hret] at h
          | ok retained =>
            simp only [build_refresh_action, hret] at h
            split at h
            · rename_i hlt
              simp only [Option.some.injEq, Except.error.injEq,
                RefreshActionError.FailedToReachConsensus.injEq] at h
              exact ⟨pb, rb, dps, retained, rfl, rfl, rfl, hret, hlt, h.1.symm,
                h.2.1.symm, h.2.2.symm⟩
            · split at h
              · simp at h
              · split at h
                · simp at h
                · split at h
                  · simp at h
                  · split at h
                    · simp at h
                    · split at h
                      · simp at h
                      · split at h
                        · simp at h
                        · split at h
                          · simp at h
                          · simp at h
  · rintro ⟨pb, rb, dps, retained, hpb, hrb, hdps, hret, hlt, hpk, hfound, hexp⟩
    subst hpb
    subst hrb
    subst hdps
    subst hpk
    subst hfound
    subst hexp
    simp only [build_refresh_action, hret]
    rw [if_pos hlt]

theorem cFiltered_eq : filtered_oracle_boxes_by_rate [100, 102] 5 = .ok [100, 102] := by
  rw [filtered_oracle_boxes_by_rate, if_neg (by decide), filterLoop]
  norm_num [deviation_check, u64Size, listMin, listMax]

theorem cRetained_eq :
    retainedCandidates cPoolBox cRefreshBox [cOracle1, cOracle2] 100 5 =
      .ok [cOracle1, cOracle2] := by
  rw [retainedCandidates]
  rw [show List.insertionSort (fun a b => a.rate ≤ b.rate)
    (List.filter (oracleBoxFilter (100 - cRefreshBox.epoch_length) cPoolBox.epoch_counter)
      [cOracle1, cOracle2]) = [cOracle1, cOracle2] from by decide]
  rw [show List.map PostedOracleBox.rate [cOracle1, cOracle2] = [100, 102] from by decide]
  rw [cFiltered_eq]
  rfl

theorem cRetainedPoor_eq :
    retainedCandidates cPoolBoxPoor cRefreshBox [cOracle1, cOracle2] 100 5 =
      .ok [cOracle1, cOracle2] := by
  rw [retainedCandidates]
  rw [show List.insertionSort (fun a b => a.rate ≤ b.rate)
    (List.filter
      (oracleBoxFilter (100 - cRefreshBox.epoch_length) cPoolBoxPoor.epoch_counter)
      [cOracle1, cOracle2]) = [cOracle1, cOracle2] from by decide]
  rw [show List.map PostedOracleBox.rate [cOracle1, cOracle2] = [100, 102] from by decide]
  rw [cFiltered_eq]
  rfl

theorem cBuild_eq :
    build_refresh_action (.ok cPoolBox) (.ok cRefreshBox) (.ok [cOracle1, cOracle2]) 5 2
      (.ok [7]) (fun bs => .ok bs) (.ok ()) 100 1 =
    some (.ok { output_candidates := [
                  make_pool_box_candidate 1 (toSigned64 101) 2 11 12 96 1000000 100,
                  make_refresh_box_candidate 2 13 5000 100,
                  make_collected_oracle_box_candidate 3 1 14 1 12 13 400 100,
                  make_collected_oracle_box_candidate 3 2 14 1 12 21 400 100]
                my_input_oracle_box_index := 0
                selected_wallet_boxes := [7] }) := by
  simp only [build_refresh_action, cRetained_eq]
  rfl

/-- Claim C1 as frozen is false: in a successful refresh with two retained oracle boxes
(rates 100 and 102, collector key 1 holding 10 reward tokens), the collector's output
box holds 13 reward tokens, i.e. the input amount plus `1 + |retained| = 3`, not the
claimed input amount plus `|retained| + 2 = 4`. -/
theorem c1_collector_bonus_counterexample :
    (build_refresh_action (.ok cPoolBox) (.ok cRefreshBox) (.ok [cOracle1, cOracle2]) 5 2
        (.ok [7]) (fun bs => .ok bs) (.ok ()) 100 1).map (Except.map (fun act =>
      (act.output_candidates.drop 2).map ErgoBoxCandidate.tokens)) =
      some (.ok [[(14, 1), (12, 13)], [(14, 1), (12, 21)]]) ∧
    (13 : Nat) ≠
      cOracle1.reward_token_amount + (([cOracle1, cOracle2] : List PostedOracleBox).length + 2) := by
  constructor
  · rw [cBuild_eq]
    rfl
  · decide

/-- Claim C1 amended: in every successful refresh build, the output box of the `i`-th
retained oracle keeps its contract, value, public key and oracle token, and its
reward-token amount grows by 1, except the collector's (public key equal to the
operator's), which grows by `1 + |retained|` (the code replaces the base increment by
`1 + |retained|`; it does not add it on top of the base 1). -/
theorem c1_collector_reward_amended
    {pool_box_res : Except StageErr PoolBoxWrapper}
    {refresh_box_res : Except StageErr RefreshBoxWrapper}
    {datapoint_res : Except StageErr (List PostedOracleBox)}
    {dev min_dp : Nat} {wallet_res : Except WalletDataErr (List Nat)}
    {box_selector : List Nat → Except BoxSelectorErr (List Nat)}
    {tx_build_res : Except TxBuilderErr Unit} {height my_pk : Nat}
    {pb : PoolBoxWrapper} {rb : RefreshBoxWrapper} {dps : List PostedOracleBox}
    {retained : List PostedOracleBox} {act : RefreshAction}
    (hpb : pool_box_res = .ok pb) (hrb : refresh_box_res = .ok rb)
    (hdps : datapoint_res = .ok dps)
    (hret : retainedCandidates pb rb dps height dev = .ok retained)
    (h : build_refresh_action pool_box_res refresh_box_res datapoint_res dev min_dp
      wallet_res box_selector tx_build_res height my_pk = some (.ok act)) :
    ∀ (i : Nat) (b : PostedOracleBox), retained[i]? = some b →
      ∃ c, (act.output_candidates.drop 2)[i]? = some c ∧
        c.contract = b.contract ∧ c.value = b.value ∧
        c.R4 = some (.groupElement b.public_key) ∧
        c.tokens = [(b.oracle_token_id, b.oracle_token_amount),
          (b.reward_token_id, b.reward_token_amount +
            (if b.public_key = my_pk then 1 + retained.length else 1))] := by
  intro i b hib
  obtain ⟨-, rate, out_pool, outs, sel, my_idx, hrate, hpool, houts, hact⟩ :=
    build_refresh_action_ok_inv hpb hrb hdps hret h
  subst hact
  simp only [List.drop_succ_cons, List.drop_zero]
  rw [build_out_oracle_boxes] at houts
  obtain ⟨c, hc, hfc⟩ := collectOption_map_get _ houts hib
  set inc := (if b.public_key == my_pk then 1 + retained.length else 1) with hinc
  cases hadd : checked_add_u64 b.reward_token_amount inc with
  | none => rw [hadd] at hfc; simp at hfc
  | some s =>
    rw [hadd] at hfc
    simp only [Option.map] at hfc
    injection hfc with hfc
    have hs : s = b.reward_token_amount + inc := by
      rw [checked_add_u64] at hadd
      split at hadd
      · injection hadd with hadd
        omega
      · exact absurd hadd (by simp)
    subst hfc
    refine ⟨_, hc, rfl, rfl, rfl, ?_⟩
    simp only [make_collected_oracle_box_candidate]
    by_cases hpk : b.public_key = my_pk <;> simp [hs, hinc, hpk]

/-- Witness for `c1_collector_reward_amended`: in the concrete successful build of
`cBuild_eq` with two retained oracles, the collector's output (index 0 of the oracle
outputs) carries `10 + (1 + 2) = 13` reward tokens. -/
theorem c1_collector_reward_witness :
    ∃ c, ((({ output_candidates := [
                  make_pool_box_candidate 1 (toSigned64 101) 2 11 12 96 1000000 100,
                  make_refresh_box_candidate 2 13 5000 100,
                  make_collected_oracle_box_candidate 3 1 14 1 12 13 400 100,
                  make_collected_oracle_box_candidate 3 2 14 1 12 21 400 100]
              my_input_oracle_box_index := 0
              selected_wallet_boxes := [7] } : RefreshAction)).output_candidates.drop 2)[0]?
        = some c ∧
      c.contract = cOracle1.contract ∧ c.value = cOracle1.value ∧
      c.R4 = some (.groupElement cOracle1.public_key) ∧
      c.tokens = [(cOracle1.oracle_token_id, cOracle1.oracle_token_amount),
        (cOracle1.reward_token_id, cOracle1.reward_token_amount +
          (if cOracle1.public_key = 1 then
            1 + ([cOracle1, cOracle2] : List PostedOracleBox).length else 1))] :=
  c1_collector_reward_amended rfl rfl rfl cRetained_eq cBuild_eq 0 cOracle1 (by decide)

/-- Claim C4: in every successful refresh build the output pool box keeps the input pool
box's contract, value and pool NFT, decrements the reward reserve by `2 × |retained|`,
sets R4 to the 64-bit unsigned quotient `sum of retained rates / |retained|`
(reinterpreted as `i64` on the wire), and sets R5 to the input epoch counter plus 1. -/
theorem c4_out_pool_box
    {pool_box_res : Except StageErr PoolBoxWrapper}
    {refresh_box_res : Except StageErr RefreshBoxWrapper}
    {datapoint_res : Except StageErr (List PostedOracleBox)}
    {dev min_dp : Nat} {wallet_res : Except WalletDataErr (List Nat)}
    {box_selector : List Nat → Except BoxSelectorErr (List Nat)}
    {tx_build_res : Except TxBuilderErr Unit} {height my_pk : Nat}
    {pb : PoolBoxWrapper} {rb : RefreshBoxWrapper} {dps : List PostedOracleBox}
    {retained : List PostedOracleBox} {act : RefreshAction}
    (hpb : pool_box_res = .ok pb) (hrb : refresh_box_res = .ok rb)
    (hdps : datapoint_res = .ok dps)
    (hret : retainedCandidates pb rb dps height dev = .ok retained)
    (h : build_refresh_action pool_box_res refresh_box_res datapoint_res dev min_dp
      wallet_res box_selector tx_build_res height my_pk = some (.ok act)) :
    ∃ out_pool rest, act.output_candidates = out_pool :: rest ∧
      out_pool.contract = pb.contract ∧ out_pool.value = pb.value ∧
      out_pool.tokens = [(pb.pool_nft_token_id, 1),
        (pb.reward_token_id, pb.reward_token_amount - 2 * retained.length)] ∧
      2 * retained.length ≤ pb.reward_token_amount ∧
      out_pool.R4 = some (.int (toSigned64
        ((retained.map PostedOracleBox.rate).sum % u64Size / retained.length))) ∧
      out_pool.R5 = some (.int ((pb.epoch_counter + 1 : Nat) : Int)) := by
  obtain ⟨-, rate, out_pool, outs, sel, my_idx, hrate, hpool, houts, hact⟩ :=
    build_refresh_action_ok_inv hpb hrb hdps hret h
  subst hact
  rw [calc_pool_rate] at hrate
  split at hrate
  · simp at hrate
  · rename_i hlen0
    injection hrate with hrate
    rw [build_out_pool_box] at hpool
    by_cases hdec : retained.length * 2 ≤ pb.reward_token_amount
    · rw [checked_sub_u64, if_pos hdec] at hpool
      injection hpool with hpool
      refine ⟨out_pool, build_out_refresh_box rb height :: outs, rfl, ?_, ?_, ?_,
        by omega, ?_, ?_⟩ <;> rw [← hpool]
      · rfl
      · rfl
      · rw [make_pool_box_candidate]
        rw [Nat.mul_comm 2 retained.length]
      · rw [make_pool_box_candidate]
        rw [← hrate, List.length_map]
      · rfl
    · rw [checked_sub_u64, if_neg hdec] at hpool
      simp at hpool

/-- Witness for `c4_out_pool_box`: the concrete successful build of `cBuild_eq` has
output pool box with R4 = 101, R5 = 2 and reward amount 96 = 100 − 4. -/
theorem c4_out_pool_box_witness :
    ∃ out_pool rest,
      ({ output_candidates := [
            make_pool_box_candidate 1 (toSigned64 101) 2 11 12 96 1000000 100,
            make_refresh_box_candidate 2 13 5000 100,
            make_collected_oracle_box_candidate 3 1 14 1 12 13 400 100,
            make_collected_oracle_box_candidate 3 2 14 1 12 21 400 100]
         my_input_oracle_box_index := 0
         selected_wallet_boxes := [7] } : RefreshAction).output_candidates =
          out_pool :: rest ∧
      out_pool.contract = cPoolBox.contract ∧ out_pool.value = cPoolBox.value ∧
      out_pool.tokens = [(cPoolBox.pool_nft_token_id, 1),
        (cPoolBox.reward_token_id, cPoolBox.reward_token_amount -
          2 * ([cOracle1, cOracle2] : List PostedOracleBox).length)] ∧
      2 * ([cOracle1, cOracle2] : List PostedOracleBox).length ≤
        cPoolBox.reward_token_amount ∧
      out_pool.R4 = some (.int (toSigned64
        ((([cOracle1, cOracle2] : List PostedOracleBox).map PostedOracleBox.rate).sum %
          u64Size / ([cOracle1, cOracle2] : List PostedOracleBox).length))) ∧
      out_pool.R5 = some (.int ((cPoolBox.epoch_counter + 1 : Nat) : Int)) :=
  c4_out_pool_box rfl rfl rfl cRetained_eq cBuild_eq

/-- Witness for `c5_consensus_error_iff`: two retained candidates against
`min_data_points = 8` yield `FailedToReachConsensus` with expected 8, found 2, and the
two public keys. -/
theorem c5_consensus_error_iff_witness :
    build_refresh_action (.ok cPoolBox) (.ok cRefreshBox) (.ok [cOracle1, cOracle2]) 5 8
      (.ok [7]) (fun bs => .ok bs) (.ok ()) 100 1 =
    some (.error (.FailedToReachConsensus [1, 2] 2 8)) :=
  (c5_consensus_error_iff (.ok cPoolBox) (.ok cRefreshBox) (.ok [cOracle1, cOracle2]) 5 8
      (.ok [7]) (fun bs => .ok bs) (.ok ()) 100 1 [1, 2] 2 8).mpr
    ⟨cPoolBox, cRefreshBox, [cOracle1, cOracle2], [cOracle1, cOracle2], rfl, rfl, rfl,
      cRetained_eq, by decide, by decide, by decide, rfl⟩

/-- Claim C9: `build_out_pool_box` succeeds exactly when the pool box's reward reserve
covers the decrement (the `checked_sub` + `unwrap` pattern), and a refresh whose
retained set has reached the pipeline's pool-box step with a reserve smaller than
`2 × |retained|` panics (`none`) instead of returning a `RefreshActionError`. -/
theorem c9_pool_reward_underflow_panic :
    (∀ (pb : PoolBoxWrapper) (creation_height rate reward_decrement : Nat),
      (build_out_pool_box pb creation_height rate reward_decrement).isSome ↔
        reward_decrement ≤ pb.reward_token_amount) ∧
    (∀ (pool_box_res : Except StageErr PoolBoxWrapper)
      (refresh_box_res : Except StageErr RefreshBoxWrapper)
      (datapoint_res : Except StageErr (List PostedOracleBox))
      (dev min_dp : Nat) (wallet_res : Except WalletDataErr (List Nat))
      (box_selector : List Nat → Except BoxSelectorErr (List Nat))
      (tx_build_res : Except TxBuilderErr Unit) (height my_pk : Nat)
      (pb : PoolBoxWrapper) (rb : RefreshBoxWrapper)
      (dps retained : List PostedOracleBox),
      pool_box_res = .ok pb → refresh_box_res = .ok rb → datapoint_res = .ok dps →
      retainedCandidates pb rb dps height dev = .ok retained →
      min_dp ≤ retained.length →
      pb.reward_token_amount < retained.length * 2 →
      build_refresh_action pool_box_res refresh_box_res datapoint_res dev min_dp
        wallet_res box_selector tx_build_res height my_pk = none) := by
  constructor
  · intro pb ch rate dec
    rw [build_out_pool_box, checked_sub_u64]
    by_cases hle : dec ≤ pb.reward_token_amount
    · rw [if_pos hle]
      simp [hle]
    · rw [if_neg hle]
      simp [hle]
  · intro pool_box_res refresh_box_res datapoint_res dev min_dp wallet_res box_selector
      tx_build_res height my_pk pb rb dps retained hpb hrb hdps hret hmin hlt
    subst hpb
    subst hrb
    subst hdps
    have hcalc : calc_pool_rate (retained.map PostedOracleBox.rate) =
        some ((retained.map PostedOracleBox.rate).sum % u64Size /
          (retained.map PostedOracleBox.rate).length) := by
      rw [calc_pool_rate, if_neg (by rw [List.length_map]; omega)]
    have hpool : build_out_pool_box pb height
        ((retained.map PostedOracleBox.rate).sum % u64Size /
          (retained.map PostedOracleBox.rate).length) (retained.length * 2) = none := by
      rw [build_out_pool_box, checked_sub_u64, if_neg (by omega)]
    simp only [build_refresh_action, hret, hcalc, hpool]
    rw [if_neg (by omega)]

/-- Witness for `c9_pool_reward_underflow_panic`: a reserve of 100 covers a decrement of
4, while the underfunded pool box with reserve 3 makes the refresh build panic. -/
theorem c9_pool_reward_underflow_panic_witness :
    ((build_out_pool_box cPoolBox 100 101 4).isSome ↔ 4 ≤ cPoolBox.reward_token_amount) ∧
    build_refresh_action (.ok cPoolBoxPoor) (.ok cRefreshBox) (.ok [cOracle1, cOracle2])
      5 2 (.ok [7]) (fun bs => .ok bs) (.ok ()) 100 1 = none :=
  ⟨c9_pool_reward_underflow_panic.1 cPoolBox 100 101 4,
   c9_pool_reward_underflow_panic.2 (.ok cPoolBoxPoor) (.ok cRefreshBox)
    (.ok [cOracle1, cOracle2]) 5 2 (.ok [7]) (fun bs => .ok bs) (.ok ()) 100 1
    cPoolBoxPoor cRefreshBox [cOracle1, cOracle2] [cOracle1, cOracle2] rfl rfl rfl
    cRetainedPoor_eq (by decide) (by decide)⟩

/-- Claim C6 as frozen is false: with a healthy pool-box source but a registered local
datapoint scan whose box lookup errors, the classifier returns `NeedsBootstrap` even
though the pool-box source did not return not-found or an error. -/
theorem c6_needs_bootstrap_counterexample :
    check_oracle_pool_stage (.ok cPoolBox) (some (.error .scanError)) 30 =
      .NeedsBootstrap ∧
    (Except.ok cPoolBox : Except StageErr PoolBoxWrapper).isOk = true :=
  ⟨rfl, rfl⟩

/-- Claim C6 amended: the classifier returns `NeedsBootstrap` exactly when the pool-box
source errors OR the local-datapoint source is present and errors; otherwise it returns
`LiveEpoch` with the published-this-epoch flag true iff a local datapoint box exists
with epoch counter equal to the pool box's, and with epoch-end height equal to the pool
box's creation height plus the epoch length. -/
theorem c6_classifier_amended (pool_box_res : Except StageErr PoolBoxWrapper)
    (local_box_res : Option (Except StageErr PostedOracleBox)) (epoch_length : Nat) :
    (check_oracle_pool_stage pool_box_res local_box_res epoch_length = .NeedsBootstrap ↔
      (∃ e, pool_box_res = .error e) ∨ (∃ e, local_box_res = some (.error e))) ∧
    (∀ pb, pool_box_res = .ok pb → (∀ e, local_box_res ≠ some (.error e)) →
      check_oracle_pool_stage pool_box_res local_box_res epoch_length = .LiveEpoch
        { epoch_id := pb.epoch_counter
          commit_datapoint_in_epoch :=
            match local_box_res with
            | some (.ok b) => pb.epoch_counter == b.epoch_counter
            | _ => false
          epoch_ends := pb.creation_height + epoch_length
          latest_pool_datapoint := toUnsigned64 pb.rate }) := by
  constructor
  · cases pool_box_res with
    | error e =>
      simp [check_oracle_pool_stage, get_live_epoch_state]
    | ok pb =>
      cases local_box_res with
      | none => simp [check_oracle_pool_stage, get_live_epoch_state, get_datapoint_state]
      | some v =>
        cases v with
        | error e =>
          simp [check_oracle_pool_stage, get_live_epoch_state, get_datapoint_state]
        | ok b =>
          simp [check_oracle_pool_stage, get_live_epoch_state, get_datapoint_state]
  · intro pb hpb hlocal
    subst hpb
    cases local_box_res with
    | none => rfl
    | some v =>
      cases v with
      | error e => exact absurd rfl (hlocal e)
      | ok b => rfl

/-- Witness for `c6_classifier_amended`: a healthy pool box and a healthy local
datapoint box from the same epoch classify as `LiveEpoch` with the flag set by the
epoch comparison. -/
theorem c6_classifier_amended_witness :
    check_oracle_pool_stage (.ok cPoolBox) (some (.ok cOracle1)) 30 = .LiveEpoch
      { epoch_id := cPoolBox.epoch_counter
        commit_datapoint_in_epoch :=
          match (some (.ok cOracle1) : Option (Except StageErr PostedOracleBox)) with
          | some (.ok b) => cPoolBox.epoch_counter == b.epoch_counter
          | _ => false
        epoch_ends := cPoolBox.creation_height + 30
        latest_pool_datapoint := toUnsigned64 cPoolBox.rate } :=
  (c6_classifier_amended (.ok cPoolBox) (some (.ok cOracle1)) 30).2 cPoolBox rfl
    (fun e he => by simp at he)

/-- Claim C8: every successful subsequent-publish build outputs exactly one box that
keeps the input datapoint box's contract, public key, oracle token, reward-token amount
and value, and overwrites only R5 (to the epoch counter passed by the caller, the
current pool epoch) and R6 (to the freshly fetched rate). -/
theorem c8_subsequent_publish_frame
    (b : PostedOracleBox) (wallet_res : Except WalletDataErr (List Nat)) (height : Nat)
    (datapoint_res : Except DataPointSourceErr Int) (new_epoch_counter : Nat)
    (box_selector : List Nat → Except BoxSelectorErr (List Nat))
    (tx_build_res : Except TxBuilderErr Unit) (act : PublishDataPointAction)
    (h : build_subsequent_publish_datapoint_action b wallet_res height datapoint_res
      new_epoch_counter box_selector tx_build_res = .ok act) :
    ∃ dp c, datapoint_res = .ok dp ∧ act.output_candidates = [c] ∧
      c.contract = b.contract ∧ c.R4 = some (.groupElement b.public_key) ∧
      c.tokens = [(b.oracle_token_id, b.oracle_token_amount),
        (b.reward_token_id, b.reward_token_amount)] ∧
      c.value = b.value ∧ c.R5 = some (.int new_epoch_counter) ∧
      c.R6 = some (.int dp) := by
  cases datapoint_res with
  | error e => simp [build_subsequent_publish_datapoint_action] at h
  | ok dp =>
    simp only [build_subsequent_publish_datapoint_action] at h
    split at h
    · simp at h
    · split at h
      · simp at h
      · split at h
        · simp at h
        · split at h
          · simp at h
          · injection h with h
            subst h
            exact ⟨dp, _, rfl, rfl, rfl, rfl, rfl, rfl, rfl, rfl⟩

/-- Witness for `c8_subsequent_publish_frame`: the spec's scenario 6 shape — epoch 7,
feed rate 4900000000 — reproduced on the concrete oracle box `cOracle1`. -/
theorem c8_subsequent_publish_frame_witness :
    ∃ dp c, (Except.ok 4900000000 : Except DataPointSourceErr Int) = .ok dp ∧
      ({ output_candidates := [make_oracle_box_candidate cOracle1.contract
            cOracle1.public_key 4900000000 7 cOracle1.oracle_token_id
            cOracle1.oracle_token_amount cOracle1.reward_token_id
            cOracle1.reward_token_amount cOracle1.value 100]
         selected_wallet_boxes := [7] } : PublishDataPointAction).output_candidates =
        [c] ∧
      c.contract = cOracle1.contract ∧ c.R4 = some (.groupElement cOracle1.public_key) ∧
      c.tokens = [(cOracle1.oracle_token_id, cOracle1.oracle_token_amount),
        (cOracle1.reward_token_id, cOracle1.reward_token_amount)] ∧
      c.value = cOracle1.value ∧ c.R5 = some (.int 7) ∧ c.R6 = some (.int dp) :=
  c8_subsequent_publish_frame cOracle1 (.ok [7]) 100 (.ok 4900000000) 7
    (fun bs => .ok bs) (.ok ()) _ rfl

/-- Claim C10: `get_oracle_datapoint_boxes` returns `Ok` only when every scanned box
passes the oracle-box validation, and a single failing box makes it panic (the `unwrap`
at oracle_state.rs line 516) instead of returning a `StageError`. -/
theorem c10_datapoint_boxes_unwrap (scan_res : Except StageErr (List Nat))
    (validate : Nat → Except OracleBoxErr PostedOracleBox) :
    (∀ bs ws, scan_res = .ok bs →
      get_oracle_datapoint_boxes scan_res validate = some (.ok ws) →
      ∀ b ∈ bs, ∃ w, validate b = .ok w) ∧
    (∀ bs b e, scan_res = .ok bs → b ∈ bs → validate b = .error e →
      get_oracle_datapoint_boxes scan_res validate = none) := by
  constructor
  · intro bs ws hscan hget b hb
    subst hscan
    simp only [get_oracle_datapoint_boxes] at hget
    cases hcoll : collectOption (bs.map (fun b => (validate b).toOption)) with
    | none => rw [hcoll] at hget; simp at hget
    | some ws2 =>
      obtain ⟨w, hw⟩ := collectOption_map_mem_some _ hcoll hb
      cases hv : validate b with
      | error e => rw [hv] at hw; simp [Except.toOption] at hw
      | ok w2 => exact ⟨w2, rfl⟩
  · intro bs b e hscan hb hv
    subst hscan
    simp only [get_oracle_datapoint_boxes]
    rw [collectOption_map_mem_none _ hb (by rw [hv]; rfl)]

/-- Witness for `c10_datapoint_boxes_unwrap`: scanned box 5 validates while box 0 does
not; the scan over `[5]` succeeds, and over `[0, 5]` the build panics. -/
theorem c10_datapoint_boxes_unwrap_witness :
    (∃ w, (fun n => if n = 0 then (.error .invalid : Except OracleBoxErr PostedOracleBox)
        else .ok cOracle1) 5 = .ok w) ∧
    get_oracle_datapoint_boxes (.ok [0, 5])
      (fun n => if n = 0 then .error .invalid else .ok cOracle1) = none :=
  ⟨(c10_datapoint_boxes_unwrap (.ok [5])
      (fun n => if n = 0 then .error .invalid else .ok cOracle1)).1 [5] [cOracle1] rfl
      rfl 5 (by decide),
   (c10_datapoint_boxes_unwrap (.ok [0, 5])
      (fun n => if n = 0 then .error .invalid else .ok cOracle1)).2 [0, 5] 0 .invalid rfl
      (by decide) rfl⟩

end OracleCore
